import Mathlib

/-!
Verification development for the hass-airthings polling API client.

The Python source is shallowly embedded: pure computations become Lean
functions, exceptions become Except / Option error components threaded
through return values, datetimes become integers (a timeline in seconds),
and the cooperative asyncio scheduling of lock-protected critical sections
becomes sequential composition of the critical sections in queue order.
Network I/O is abstracted into environment records holding the response
(or raised error) each request would produce.
-/

namespace Airthings

/-- JSON values, as produced by resp.json().  Numbers are modelled as
integers: no claim inspects fractional values. -/
inductive JSON where
  | null
  | bool (b : Bool)
  | num (n : Int)
  | str (s : String)
  | arr (elems : List JSON)
  | obj (fields : List (String × JSON))

/-- A JSON object (the JSONObj alias of types.py): a finite string-keyed
mapping, embedded as an association list with unique keys. -/
def JSONObj := List (String × JSON)

/-- Python dict lookup d[k] for a JSON object: the value at the key, if
present (first match). -/
def JSONObj.lookup : JSONObj → String → Option JSON
  | [], _ => none
  | (k, v) :: rest, key => if k = key then some v else JSONObj.lookup rest key

/-- errors.HTTPError: non-2xx response with status, reason phrase and the
raw decoded body. -/
structure HTTPError where
  response_payload : JSONObj
  status : Nat
  reason : String

/-- errors.APIError: structured API error parsed from an error body.  The
Python code copies the payload values unchecked, so the fields stay JSON. -/
structure APIError where
  name : JSON
  description : JSON
  code : JSON
  http_error : HTTPError

/-- The exceptions the embedded code can raise. -/
inductive AirthingsErr where
  /-- an errors.APIError instance -/
  | api (e : APIError)
  /-- an errors.HTTPError instance -/
  | http (e : HTTPError)
  /-- KeyError from a dict access -/
  | keyError (k : String)
  /-- any other exception (network failures, parse failures, ...) -/
  | exc (msg : String)

/-- errors.APIError.from_response: builds an HTTPError from the response;
if the payload has the keys error and error_code it wraps them (with the
optional error_description defaulting to a fixed string) in an APIError,
otherwise the try/except KeyError falls back to the bare HTTPError.  The
Python classmethod returns the error object; its callers raise it. -/
def APIError.from_response (status : Nat) (reason : String) (payload : JSONObj) :
    AirthingsErr :=
  let http_error : HTTPError := ⟨payload, status, reason⟩
  match payload.lookup "error", payload.lookup "error_code" with
  | some name, some code =>
      .api ⟨name, (payload.lookup "error_description").getD (.str "no description"),
            code, http_error⟩
  | _, _ => .http http_error

/-- True when the payload carries the structured error shape that
APIError.from_response can parse: both the error and error_code keys. -/
def hasStructuredErrorShape (payload : JSONObj) : Bool :=
  (payload.lookup "error").isSome && (payload.lookup "error_code").isSome

/-- AirthingsAPI._request, status handling: after the auth header is
injected and the body decoded, a status other than 200 raises
APIError.from_response(resp, data), otherwise the body is returned.
The transport and auth steps are abstracted into the arguments. -/
def AirthingsAPI.request_result (status : Nat) (reason : String) (body : JSONObj) :
    Except AirthingsErr JSONObj :=
  if status = 200 then .ok body
  else .error (APIError.from_response status reason body)

/-- AirthingsAPI.get_serial_numbers: performs the request; on success
returns data["serialNumbers"], with a KeyError turned into the empty
list. -/
def AirthingsAPI.get_serial_numbers (status : Nat) (reason : String) (body : JSONObj) :
    Except AirthingsErr JSON :=
  match AirthingsAPI.request_result status reason body with
  | .error e => .error e
  | .ok data =>
      match data.lookup "serialNumbers" with
      | some v => .ok v
      | none => .ok (.arr [])

/-! ## Authentication (custom_components/airthings/airthings/auth.py) -/

/-- auth.LoginDetails: the identity/secret pair. -/
structure LoginDetails where
  email : String
  password : String
deriving DecidableEq

/-- The body of a successful token-endpoint response, i.e. the payload
fields TokenDetails.from_payload reads. -/
structure TokenPayload where
  accessToken : String
  idToken : String
  refreshToken : String
  expiresIn : Int
deriving DecidableEq

/-- auth.TokenDetails: the cached credential.  expires_at is computed once
in __post_init__ as datetime.now() + timedelta(seconds=expires_in); the
construction-time clock is the now argument of from_payload below. -/
structure TokenDetails where
  access_token : String
  id_token : String
  refresh_token : String
  expires_in : Int
  expires_at : Int
deriving DecidableEq

/-- auth.TokenDetails.from_payload combined with __post_init__: copies the
payload fields and stamps expires_at from the current clock. -/
def TokenDetails.from_payload (now : Int) (p : TokenPayload) : TokenDetails :=
  ⟨p.accessToken, p.idToken, p.refreshToken, p.expiresIn, now + p.expiresIn⟩

/-- auth.TokenDetails.expired: datetime.now() >= self.expires_at. -/
def TokenDetails.expired (now : Int) (t : TokenDetails) : Bool :=
  t.expires_at ≤ now

/-- The token-endpoint environment: the response (or raised error) the
login and refresh requests would produce.  This abstracts the HTTP POST,
the status check and the APIError.from_response raise of
auth.login_request / auth.refresh_request. -/
structure AuthEnv where
  loginResp : LoginDetails → Except AirthingsErr TokenPayload
  refreshResp : TokenDetails → Except AirthingsErr TokenPayload

/-- auth.login_request: posts the login payload and builds TokenDetails
from the response, stamping the expiry from the current clock. -/
def login_request (env : AuthEnv) (now : Int) (login : LoginDetails) :
    Except AirthingsErr TokenDetails :=
  (env.loginResp login).map (TokenDetails.from_payload now)

/-- auth.refresh_request: posts the refresh token and builds TokenDetails
from the response. -/
def refresh_request (env : AuthEnv) (now : Int) (t : TokenDetails) :
    Except AirthingsErr TokenDetails :=
  (env.refreshResp t).map (TokenDetails.from_payload now)

/-- auth.AuthManager state: the login details and the optional cached
token.  The aiohttp session handle carries no claim-relevant state. -/
structure AuthManager where
  login : LoginDetails
  token : Option TokenDetails
deriving DecidableEq

/-- The login_details setter: clears the cached token, then replaces the
identity. -/
def AuthManager.set_login_details (_m : AuthManager) (value : LoginDetails) :
    AuthManager :=
  { token := none, login := value }

/-- auth.AuthManager._should_renew_token: token absent or expired. -/
def AuthManager.should_renew_token (now : Int) (m : AuthManager) : Bool :=
  m.token.isNone || (m.token.map (TokenDetails.expired now)).getD false

/-- auth.AuthManager._force_renew_token: one network request — login when
no token is cached, refresh otherwise.  The assignment to self._token
happens only after the request returns, so a raised error leaves the state
as it was; the pair returns the (possibly unchanged) state and the raised
error, if any. -/
def AuthManager.force_renew_token (env : AuthEnv) (now : Int) (m : AuthManager) :
    AuthManager × Option AirthingsErr :=
  match m.token with
  | none =>
      match login_request env now m.login with
      | .error e => (m, some e)
      | .ok tok => ({ m with token := some tok }, none)
  | some t =>
      match refresh_request env now t with
      | .error e => (m, some e)
      | .ok tok => ({ m with token := some tok }, none)

/-- The result of the single network request _force_renew_token is about
to issue from state m: the login response when no token is cached, the
refresh response otherwise. -/
def AuthManager.pending_renewal_result (env : AuthEnv) (now : Int) (m : AuthManager) :
    Except AirthingsErr TokenDetails :=
  match m.token with
  | none => login_request env now m.login
  | some t => refresh_request env now t

/-- auth.AuthManager._maybe_renew_token, executed inside the lock: returns
False without a request when the token is still valid, otherwise performs
the renewal and returns True; a renewal error propagates. -/
def AuthManager.maybe_renew_token (env : AuthEnv) (now : Int) (m : AuthManager) :
    AuthManager × Except AirthingsErr Bool :=
  if AuthManager.should_renew_token now m then
    match AuthManager.force_renew_token env now m with
    | (m1, some e) => (m1, .error e)
    | (m1, none) => (m1, .ok true)
  else
    (m, .ok false)

/-- auth.AuthManager.get_token_details: maybe renew, then return the
cached token (typed Optional in the source). -/
def AuthManager.get_token_details (env : AuthEnv) (now : Int) (m : AuthManager) :
    AuthManager × Except AirthingsErr (Option TokenDetails) :=
  match AuthManager.maybe_renew_token env now m with
  | (m1, .error e) => (m1, .error e)
  | (m1, .ok _) => (m1, .ok m1.token)

/-- auth.AuthManager.get_access_token: the access token of the details
(an absent token would be a Python AttributeError; the Option records that
it cannot be produced). -/
def AuthManager.get_access_token (env : AuthEnv) (now : Int) (m : AuthManager) :
    AuthManager × Except AirthingsErr (Option String) :=
  match AuthManager.get_token_details env now m with
  | (m1, .error e) => (m1, .error e)
  | (m1, .ok d) => (m1, .ok (d.map TokenDetails.access_token))

/-- Number of renewal network requests one get_access_token call issues
from state m: _maybe_renew_token reaches _force_renew_token, which makes
exactly one request, precisely when _should_renew_token holds at entry. -/
def AuthManager.renewal_requests (now : Int) (m : AuthManager) : Nat :=
  if AuthManager.should_renew_token now m then 1 else 0

/-- N concurrent get_access_token callers: the asyncio.Lock serializes the
check-and-renew critical sections, so in the cooperative model the callers
run one after another in queue order at one instant.  Returns the final
state, the per-caller results, and the total number of renewal network
requests made. -/
def AuthManager.run_caller_queue (env : AuthEnv) (now : Int) :
    AuthManager → Nat → AuthManager × List (Except AirthingsErr (Option String)) × Nat
  | m, 0 => (m, [], 0)
  | m, n + 1 =>
      let c := AuthManager.renewal_requests now m
      let r := AuthManager.get_access_token env now m
      let rest := AuthManager.run_caller_queue env now r.1 n
      (rest.1, r.2 :: rest.2.1, c + rest.2.2)

/-! ## Event system (custom_components/airthings/airthings/event_system.py) -/

/-- A registered callback, identified by a number; its behaviour when
awaited is supplied by the environment at dispatch time. -/
def Callback := Nat

/-- event_system.EventSystem state: the topic-to-listener-list mapping. -/
def EventSystem := List (String × List Nat)

/-- Topic lookup, as the dict access self.__topics[name]. -/
def EventSystem.listeners : EventSystem → String → Option (List Nat)
  | [], _ => none
  | (k, ls) :: rest, name => if k = name then some ls else EventSystem.listeners rest name

/-- event_system.EventSystem.add_listener: appends the callback to the
topic's listener list, creating the list when the topic is new. -/
def EventSystem.add_listener : EventSystem → String → Nat → EventSystem
  | [], name, cb => [(name, [cb])]
  | (k, ls) :: rest, name, cb =>
      if k = name then (k, ls ++ [cb]) :: rest
      else (k, ls) :: EventSystem.add_listener rest name cb

/-- event_system.EventSystem.__dispatch_to: awaits one handler inside a
try/except that catches every exception and logs it.  The caught error is
recorded next to the handler; nothing propagates. -/
def EventSystem.dispatch_to (run : Nat → Except String Unit) (f : Nat) :
    Nat × Option String :=
  (f, match run f with
      | .ok _ => none
      | .error e => some e)

/-- event_system.EventSystem.dispatch: an unknown topic returns at once;
otherwise every registered listener is dispatched (asyncio.gather keeps
the results in registration order).  The return value is the invocation
record the gather produces; the publisher never receives an exception. -/
def EventSystem.dispatch (sys : EventSystem) (run : Nat → Except String Unit)
    (name : String) : List (Nat × Option String) :=
  match EventSystem.listeners sys name with
  | none => []
  | some ls => ls.map (EventSystem.dispatch_to run)

/-! ## Devices and the reconciliation cycle
(custom_components/airthings/airthings/api.py) -/

/-- api.Sample, restricted to the fields the reconciliation engine reads:
room, location, the record timestamps, and per-sensor-type value lists
(Sensor.type with Sensor.values; readings modelled as integers). -/
structure Sample where
  room : String
  location : String
  last_record : Int
  next_page_start : Int
  sensors : List (String × List Int)

/-- api.DeviceState, with its DeviceInfo inlined: serial number, room,
location, the newest value per sensor type, and the _next_page_start
cursor. -/
structure DeviceState where
  serial_number : String
  room : String
  location : String
  values : List (String × Int)
  next_page_start : Int

/-- Dict assignment self.values[st] = v: replace the entry or append. -/
def setValue : List (String × Int) → String → Int → List (String × Int)
  | [], st, v => [(st, v)]
  | (k, w) :: rest, st, v =>
      if k = st then (k, v) :: rest else (k, w) :: setValue rest st v

/-- The loop body of DeviceState._update_from_sample: for each sensor type
of the sample, the newest value (the last of the value list, which is what
next(iter_sensor_values(st, reverse=True)) yields) overwrites the entry;
a sensor with no values is skipped via the StopIteration handler. -/
def updateValues (values : List (String × Int)) :
    List (String × List Int) → List (String × Int)
  | [] => values
  | (st, vs) :: rest =>
      match vs.getLast? with
      | none => updateValues values rest
      | some v => updateValues (setValue values st v) rest

/-- api.DeviceState._update_from_sample (with DeviceInfo._update_from_sample
inlined): refreshes room and location, stores the next page cursor, and
overwrites the newest value of each sensor type present in the sample. -/
def DeviceState.update_from_sample (st : DeviceState) (s : Sample) : DeviceState :=
  { st with
    room := s.room
    location := s.location
    next_page_start := s.next_page_start
    values := updateValues st.values s.sensors }

/-- api.DeviceState.from_sample: a fresh state with the DeviceInfo drawn
from the sample and empty values, then _update_from_sample. -/
def DeviceState.from_sample (sn : String) (s : Sample) : DeviceState :=
  DeviceState.update_from_sample ⟨sn, s.room, s.location, [], s.next_page_start⟩ s

/-- The events the engine emits: device_added and device_removed on the
AirthingsAPI hub (carrying the DeviceState), and updated / removed on a
device's own channel (identified by its serial number). -/
inductive Event where
  | device_added (st : DeviceState)
  | device_removed (st : DeviceState)
  | updated (sn : String)
  | removed (sn : String)

/-- The per-device sample endpoint: the Sample (or raised error) that
api.get_latest_sample(sn, from_dt) would produce. -/
def SampleEnv := String → Int → Except AirthingsErr Sample

/-- Seconds in the timedelta(days=1) look-back of DeviceState.get. -/
def oneDay : Int := 86400

/-- api.DeviceState.get: fetches the latest sample of the last day and
builds the state from it. -/
def DeviceState.get (sampleFor : SampleEnv) (now : Int) (sn : String) :
    Except AirthingsErr DeviceState :=
  (sampleFor sn (now - oneDay)).map (DeviceState.from_sample sn)

/-- api.DeviceState.update: fetches the latest sample from the
_next_page_start cursor; when it holds no newer record the call returns
without an event, otherwise the state absorbs the sample and updated is
dispatched on the device's channel. -/
def DeviceState.update (sampleFor : SampleEnv) (st : DeviceState) :
    Except AirthingsErr (DeviceState × List Event) :=
  match sampleFor st.serial_number st.next_page_start with
  | .error e => .error e
  | .ok s =>
      if s.last_record ≤ st.next_page_start then .ok (st, [])
      else .ok (DeviceState.update_from_sample st s, [.updated st.serial_number])

/-- The AirthingsAPI.__states registry: serial number to DeviceState,
embedded as an association list in insertion order (Python dicts preserve
insertion order and hold each key once). -/
abbrev Registry := List (String × DeviceState)

/-- The registry's key set, set(self.__states.keys()). -/
def Registry.keys (states : Registry) : List String :=
  states.map Prod.fst

/-- Dict lookup self.__states[sn]. -/
def Registry.find : Registry → String → Option DeviceState
  | [], _ => none
  | (k, v) :: rest, sn => if k = sn then some v else Registry.find rest sn

/-- Dict assignment self.__states[sn] = v: replace or append. -/
def Registry.set : Registry → String → DeviceState → Registry
  | [], sn, v => [(sn, v)]
  | (k, w) :: rest, sn, v =>
      if k = sn then (k, v) :: rest else (k, w) :: Registry.set rest sn v

/-- Dict removal self.__states.pop(sn): the removed state and the
remaining registry; None when the key is missing (Python would raise
KeyError). -/
def Registry.pop : Registry → String → Option (DeviceState × Registry)
  | [], _ => none
  | (k, v) :: rest, sn =>
      if k = sn then some (v, rest)
      else (Registry.pop rest sn).map (fun r => (r.1, (k, v) :: r.2))

/-- api.AirthingsAPI.get_state: under the states lock, an already-tracked
serial number is looked up (and then updated outside the lock, the updated
object staying in the dict), a new one is fetched via DeviceState.get and
inserted.  On a raised error the registry is as before the call. -/
def AirthingsAPI.get_state (sampleFor : SampleEnv) (now : Int) (states : Registry)
    (sn : String) : Registry × Except AirthingsErr (DeviceState × List Event) :=
  match Registry.find states sn with
  | some v =>
      match DeviceState.update sampleFor v with
      | .error e => (states, .error e)
      | .ok r => (Registry.set states sn r.1, .ok r)
  | none =>
      match DeviceState.get sampleFor now sn with
      | .error e => (states, .error e)
      | .ok st => (Registry.set states sn st, .ok (st, []))

/-- Outcome of one reconciliation cycle: the registry afterwards, the
events dispatched (in dispatch order), and the exception the cycle raised,
if any. -/
structure CycleOutcome where
  states : Registry
  events : List Event
  error : Option AirthingsErr

/-- The added-serial-numbers loop of __update_serial_numbers_once: for
each new serial number, get_state then a device_added dispatch on the hub.
A raised error aborts the loop, keeping the mutations made so far. -/
def addPhase (sampleFor : SampleEnv) (now : Int) (states : Registry) :
    List String → Registry × List Event × Option AirthingsErr
  | [] => (states, [], none)
  | sn :: rest =>
      match AirthingsAPI.get_state sampleFor now states sn with
      | (states1, .error e) => (states1, [], some e)
      | (states1, .ok (st, evs)) =>
          let r := addPhase sampleFor now states1 rest
          (r.1, evs ++ Event.device_added st :: r.2.1, r.2.2)

/-- The removed-serial-numbers loop of __update_serial_numbers_once, run
under the states lock: pop each serial number, dispatch device_removed on
the hub, then removed on the device's own channel.  A pop of a missing key
would raise KeyError. -/
def removePhase (states : Registry) :
    List String → Registry × List Event × Option AirthingsErr
  | [] => (states, [], none)
  | sn :: rest =>
      match Registry.pop states sn with
      | none => (states, [], some (.keyError sn))
      | some (st, states1) =>
          let r := removePhase states1 rest
          (r.1, Event.device_removed st :: Event.removed sn :: r.2.1, r.2.2)

/-- api.AirthingsAPI.__update_serial_numbers_once: fetch the serial
numbers (a raised error aborts at once), diff against the tracked keys,
run the add loop over the new serial numbers, return early when nothing
was removed, else run the removal loop.  The fetched Python set is
embedded as the deduplicated fetch list, fixing the unspecified set
iteration order to first-occurrence order; set difference becomes a
membership filter. -/
def update_serial_numbers_once (fetch : Except AirthingsErr (List String))
    (sampleFor : SampleEnv) (now : Int) (states : Registry) : CycleOutcome :=
  match fetch with
  | .error e => ⟨states, [], some e⟩
  | .ok fetched =>
      let sns_now := fetched.dedup
      let sns_before := Registry.keys states
      let added_sns := sns_now.filter (fun sn => !sns_before.contains sn)
      let a := addPhase sampleFor now states added_sns
      match a.2.2 with
      | some e => ⟨a.1, a.2.1, some e⟩
      | none =>
          let removed_sns := sns_before.filter (fun sn => !sns_now.contains sn)
          let r := removePhase a.1 removed_sns
          ⟨r.1, a.2.1 ++ r.2.1, r.2.2⟩

/-- api.AirthingsAPI.__update_states_once: await update() on every tracked
state in registry order; a raised error aborts the pass, the states
already refreshed keeping their new contents. -/
def update_states_once (sampleFor : SampleEnv) :
    Registry → Registry × List Event × Option AirthingsErr
  | [] => ([], [], none)
  | (sn, v) :: rest =>
      match DeviceState.update sampleFor v with
      | .error e => ((sn, v) :: rest, [], some e)
      | .ok (v1, evs) =>
          let r := update_states_once sampleFor rest
          ((sn, v1) :: r.1, evs ++ r.2.1, r.2.2)

/-- The environment one wake-up of a polling loop sees: the serial-number
fetch outcome, the sample endpoint, and the clock. -/
structure CycleEnv where
  fetch : Except AirthingsErr (List String)
  sampleFor : SampleEnv
  now : Int

/-- api.AirthingsAPI.__update_serial_numbers_loop, run for n wake-ups
starting at iteration index i: each wake-up runs the cycle inside a
try/except that catches and logs every exception, then sleeps.  Returns
the registry after the n wake-ups and the outcome trace. -/
def serial_numbers_loop (envs : Nat → CycleEnv) (i : Nat) (states : Registry) :
    Nat → Registry × List CycleOutcome
  | 0 => (states, [])
  | n + 1 =>
      let r := update_serial_numbers_once (envs i).fetch (envs i).sampleFor
        (envs i).now states
      let rest := serial_numbers_loop envs (i + 1) r.states n
      (rest.1, r :: rest.2)

/-- api.AirthingsAPI.__update_states_loop, run for n wake-ups starting at
iteration index i, with the same catch-all error boundary. -/
def states_loop (envs : Nat → CycleEnv) (i : Nat) (states : Registry) :
    Nat → Registry × List (Registry × List Event × Option AirthingsErr)
  | 0 => (states, [])
  | n + 1 =>
      let r := update_states_once (envs i).sampleFor states
      let rest := states_loop envs (i + 1) r.1 n
      (rest.1, r :: rest.2)

/-! ## Observations on event traces -/

/-- True for the hub-level device_added events. -/
def Event.isAdded : Event → Bool
  | .device_added _ => true
  | _ => false

/-- True for the hub-level device_removed events. -/
def Event.isRemoved : Event → Bool
  | .device_removed _ => true
  | _ => false

/-- True for the per-device updated events. -/
def Event.isUpdated : Event → Bool
  | .updated _ => true
  | _ => false

/-- Number of updated events in a trace. -/
def countUpdated (evs : List Event) : Nat :=
  (evs.filter Event.isUpdated).length

/-- True for the removal events of a cycle: device_removed on the hub and
removed on a device channel. -/
def Event.isRemovalKind : Event → Bool
  | .device_removed _ => true
  | .removed _ => true
  | _ => false

/-- True when every removal event (device_removed on the hub, removed on
a device channel) precedes every addition and update event of the trace:
the order the spec prescribes for one cycle. -/
def removalsBeforeAddsUpdates : List Event → Bool
  | [] => true
  | e :: rest =>
      if e.isRemovalKind then removalsBeforeAddsUpdates rest
      else rest.all (fun x => !x.isRemovalKind)

/-- True when every device_added and updated event precedes every removal
event: the order the code actually produces in one cycle. -/
def addsBeforeRemovals : List Event → Bool
  | [] => true
  | e :: rest =>
      if e.isRemovalKind then rest.all Event.isRemovalKind
      else addsBeforeRemovals rest

/-! ## Theorems: token store (claims C3, C4, C5) -/

/-- When the pending renewal request succeeds, _force_renew_token installs
the fresh token and raises nothing. -/
theorem force_renew_token_of_ok (env : AuthEnv) (now : Int) (m : AuthManager)
    (tok : TokenDetails)
    (h : AuthManager.pending_renewal_result env now m = .ok tok) :
    AuthManager.force_renew_token env now m = ({ m with token := some tok }, none) := by
  unfold AuthManager.pending_renewal_result at h
  cases hm : m.token with
  | none =>
      have h2 : login_request env now m.login = .ok tok := by rw [hm] at h; exact h
      simp [AuthManager.force_renew_token, hm, h2]
  | some t =>
      have h2 : refresh_request env now t = .ok tok := by rw [hm] at h; exact h
      simp [AuthManager.force_renew_token, hm, h2]

/-- A caller that finds a valid cached token returns it without touching
the state and without a renewal request. -/
theorem get_access_token_of_valid (env : AuthEnv) (now : Int) (m : AuthManager)
    (tok : TokenDetails) (h : m.token = some tok)
    (hv : TokenDetails.expired now tok = false) :
    AuthManager.get_access_token env now m = (m, .ok (some tok.access_token)) ∧
    AuthManager.renewal_requests now m = 0 := by
  have hs : AuthManager.should_renew_token now m = false := by
    unfold AuthManager.should_renew_token
    rw [h]
    simp [hv]
  constructor
  · unfold AuthManager.get_access_token AuthManager.get_token_details
      AuthManager.maybe_renew_token
    rw [hs]
    simp [h]
  · unfold AuthManager.renewal_requests
    rw [hs]
    rfl

/-- A queue of callers all finding the same valid cached token performs no
renewal request at all. -/
theorem run_caller_queue_of_valid (env : AuthEnv) (now : Int) (m : AuthManager)
    (tok : TokenDetails) (h : m.token = some tok)
    (hv : TokenDetails.expired now tok = false) :
    ∀ n, AuthManager.run_caller_queue env now m n =
      (m, List.replicate n (.ok (some tok.access_token)), 0) := by
  intro n
  induction n with
  | zero => rfl
  | succ k ih =>
      obtain ⟨h1, h2⟩ := get_access_token_of_valid env now m tok h hv
      simp only [AuthManager.run_caller_queue, h1, h2, ih, List.replicate_succ,
        Nat.zero_add]

/-- C3: with no valid credential cached, any number of concurrent
getAccessToken callers (serialized by the lock, run in queue order in the
cooperative model) performs exactly one renewal network request; every
caller receives the access token the single renewal installed, which is
cached afterwards.  The renewal response must itself carry a positive
lifetime (the spec notes an expiresIn of zero is immediately expired). -/
theorem auth_single_flight (env : AuthEnv) (now : Int) (m : AuthManager)
    (tok : TokenDetails) (n : Nat)
    (hinvalid : AuthManager.should_renew_token now m = true)
    (hresp : AuthManager.pending_renewal_result env now m = .ok tok)
    (hfresh : now < tok.expires_at) :
    AuthManager.run_caller_queue env now m (n + 1) =
      ({ m with token := some tok },
       List.replicate (n + 1) (.ok (some tok.access_token)), 1) := by
  have hforce := force_renew_token_of_ok env now m tok hresp
  have hexp : TokenDetails.expired now tok = false := by
    unfold TokenDetails.expired
    simp only [decide_eq_false_iff_not, not_le]
    exact hfresh
  have hfirst : AuthManager.get_access_token env now m =
      ({ m with token := some tok }, .ok (some tok.access_token)) := by
    unfold AuthManager.get_access_token AuthManager.get_token_details
      AuthManager.maybe_renew_token
    rw [hinvalid]
    simp only [if_true, hforce]
    rfl
  have hcount : AuthManager.renewal_requests now m = 1 := by
    unfold AuthManager.renewal_requests
    rw [hinvalid]
    rfl
  have hrest := run_caller_queue_of_valid env now { m with token := some tok } tok
    rfl hexp n
  simp only [AuthManager.run_caller_queue, hfirst, hcount, hrest, List.replicate_succ,
    Nat.add_zero]

/-- A token endpoint answering every login with one fixed fresh token. -/
def envSingle : AuthEnv :=
  ⟨fun _ => .ok ⟨"access-1", "id-1", "refresh-1", 3600⟩,
   fun _ => .error (.exc "refresh not expected")⟩

/-- An auth manager with no cached credential. -/
def managerEmpty : AuthManager := ⟨⟨"user@example.com", "pw"⟩, none⟩

/-- The token the single renewal of the witness run installs. -/
def tokenSingle : TokenDetails :=
  TokenDetails.from_payload 0 ⟨"access-1", "id-1", "refresh-1", 3600⟩

/-- Witness for C3: three concurrent callers with an empty cache cause
exactly one renewal request, and all three receive the installed token. -/
theorem auth_single_flight_witness :
    AuthManager.run_caller_queue envSingle 0 managerEmpty 3 =
      ({ managerEmpty with token := some tokenSingle },
       List.replicate 3 (.ok (some "access-1")), 1) :=
  auth_single_flight envSingle 0 managerEmpty tokenSingle 2 rfl rfl (by decide)

/-- C4: setting new login details clears the cached credential, and the
next getAccessToken call performs a fresh full login with the new identity
— for every refresh-response behaviour of the endpoint, the outcome is
determined by the login response alone, so no token issued under the
previous identity can be returned: on a successful login the caller gets
exactly the newly issued token, and on a failed login the error
propagates and no token is returned at all. -/
theorem set_login_details_forces_fresh_login (env : AuthEnv) (now : Int)
    (m : AuthManager) (v : LoginDetails) :
    (AuthManager.set_login_details m v).token = none ∧
    (∀ p, env.loginResp v = .ok p →
      AuthManager.get_access_token env now (AuthManager.set_login_details m v) =
        (⟨v, some (TokenDetails.from_payload now p)⟩, .ok (some p.accessToken))) ∧
    (∀ e, env.loginResp v = .error e →
      AuthManager.get_access_token env now (AuthManager.set_login_details m v) =
        (⟨v, none⟩, .error e)) := by
  refine ⟨rfl, ?_, ?_⟩
  · intro p hp
    unfold AuthManager.get_access_token AuthManager.get_token_details
      AuthManager.maybe_renew_token AuthManager.should_renew_token
      AuthManager.force_renew_token AuthManager.set_login_details login_request
    simp [hp]
    rfl
  · intro e he
    unfold AuthManager.get_access_token AuthManager.get_token_details
      AuthManager.maybe_renew_token AuthManager.should_renew_token
      AuthManager.force_renew_token AuthManager.set_login_details login_request
    simp [he, Except.map]

/-- A token endpoint whose login response depends on the identity. -/
def envPerIdentity : AuthEnv :=
  ⟨fun l => .ok ⟨"access-for-" ++ l.email, "id", "refresh", 3600⟩,
   fun _ => .ok ⟨"access-refreshed", "id", "refresh", 3600⟩⟩

/-- A manager still holding a token of the old identity. -/
def managerOld : AuthManager :=
  ⟨⟨"old@example.com", "pw1"⟩,
   some (TokenDetails.from_payload 0 ⟨"access-for-old@example.com", "id", "refresh", 7200⟩)⟩

/-- Witness for C4: after replacing the identity, the cache is empty and
the next call returns the token freshly issued to the new identity. -/
theorem set_login_details_forces_fresh_login_witness :
    (AuthManager.set_login_details managerOld ⟨"new@example.com", "pw2"⟩).token = none ∧
    AuthManager.get_access_token envPerIdentity 5
        (AuthManager.set_login_details managerOld ⟨"new@example.com", "pw2"⟩) =
      (⟨⟨"new@example.com", "pw2"⟩,
        some (TokenDetails.from_payload 5 ⟨"access-for-new@example.com", "id", "refresh", 3600⟩)⟩,
       .ok (some "access-for-new@example.com")) :=
  ⟨(set_login_details_forces_fresh_login envPerIdentity 5 managerOld _).1,
   (set_login_details_forces_fresh_login envPerIdentity 5 managerOld
      ⟨"new@example.com", "pw2"⟩).2.1 _ rfl⟩

/-- C5: a renewal or login request that fails raises the error to the
caller and leaves the cached credential (and the whole manager state)
exactly as it was — the assignment to the credential happens only after
the request has returned. -/
theorem failed_renewal_preserves_credential (env : AuthEnv) (now : Int)
    (m : AuthManager) (e : AirthingsErr)
    (h : AuthManager.pending_renewal_result env now m = .error e) :
    AuthManager.force_renew_token env now m = (m, some e) := by
  unfold AuthManager.pending_renewal_result at h
  cases hm : m.token with
  | none =>
      have h2 : login_request env now m.login = .error e := by rw [hm] at h; exact h
      simp [AuthManager.force_renew_token, hm, h2]
  | some t =>
      have h2 : refresh_request env now t = .error e := by rw [hm] at h; exact h
      simp [AuthManager.force_renew_token, hm, h2]

/-- A token endpoint where every request fails. -/
def envDown : AuthEnv :=
  ⟨fun _ => .error (.exc "connection refused"),
   fun _ => .error (.exc "connection refused")⟩

/-- Witness for C5: a failed login attempt from an empty cache raises the
request's error and leaves the manager untouched. -/
theorem failed_renewal_preserves_credential_witness :
    AuthManager.pending_renewal_result envDown 0 managerEmpty =
      .error (.exc "connection refused") ∧
    AuthManager.force_renew_token envDown 0 managerEmpty =
      (managerEmpty, some (.exc "connection refused")) :=
  ⟨rfl, failed_renewal_preserves_credential envDown 0 managerEmpty _ rfl⟩

/-! ## Theorems: request error classification (claim C9) -/

/-- C9: a response whose status is not a success is raised as an error;
the error is the structured API error carrying the name, description and
numeric code fields of the body exactly when the body has the structured
shape (the error and error_code keys, the description defaulting when
absent), and otherwise the generic HTTP error carrying the status, the
reason phrase and the raw body. -/
theorem request_error_classification (status : Nat) (reason : String)
    (body : JSONObj) (h : ¬(200 ≤ status ∧ status < 300)) :
    AirthingsAPI.request_result status reason body =
      .error (APIError.from_response status reason body) ∧
    (∀ name code, body.lookup "error" = some name →
      body.lookup "error_code" = some code →
      APIError.from_response status reason body =
        .api ⟨name, (body.lookup "error_description").getD (.str "no description"),
              code, ⟨body, status, reason⟩⟩) ∧
    (hasStructuredErrorShape body = false →
      APIError.from_response status reason body = .http ⟨body, status, reason⟩) := by
  have hne : status ≠ 200 := by
    intro hs
    exact h ⟨by omega, by omega⟩
  refine ⟨?_, ?_, ?_⟩
  · unfold AirthingsAPI.request_result
    rw [if_neg hne]
  · intro name code hn hc
    unfold APIError.from_response
    rw [hn, hc]
  · intro hshape
    unfold hasStructuredErrorShape at hshape
    unfold APIError.from_response
    cases hn : body.lookup "error" with
    | none => rfl
    | some name =>
        cases hc : body.lookup "error_code" with
        | none => rfl
        | some code => rw [hn, hc] at hshape; simp at hshape

/-- A 404 body carrying the structured error shape. -/
def bodyStructured : JSONObj :=
  [("error", .str "DEVICE_NOT_FOUND"), ("error_code", .num 42)]

/-- Witness for C9: a 404 with a structured body is raised as the API
error built from the body's fields. -/
theorem request_error_classification_witness :
    ¬(200 ≤ 404 ∧ 404 < 300) ∧
    AirthingsAPI.request_result 404 "Not Found" bodyStructured =
      .error (.api ⟨.str "DEVICE_NOT_FOUND", .str "no description", .num 42,
                    ⟨bodyStructured, 404, "Not Found"⟩⟩) := by
  refine ⟨by omega, ?_⟩
  have h := request_error_classification 404 "Not Found" bodyStructured (by omega)
  rw [h.1, h.2.1 (.str "DEVICE_NOT_FOUND") (.num 42) rfl rfl]
  rfl

/-! ## Theorems: event hub isolation (claim C7) -/

/-- C7: dispatching a topic invokes every registered listener (the gather
record lists each with the error it raised, if any); a listener that
raises is recorded with its caught error while a succeeding listener still
runs and is recorded as clean, and the publisher receives the record, not
an exception; a topic with no listeners dispatches to nobody. -/
theorem dispatch_isolates_handler_failures (sys : EventSystem) (name : String)
    (run : Nat → Except String Unit) (ls : List Nat) (f1 f2 : Nat) (e : String)
    (hls : EventSystem.listeners sys name = some ls)
    (hmem1 : f1 ∈ ls) (hmem2 : f2 ∈ ls)
    (hrun1 : run f1 = .error e) (hrun2 : run f2 = .ok ()) :
    EventSystem.dispatch sys run name = ls.map (EventSystem.dispatch_to run) ∧
    (f2, none) ∈ EventSystem.dispatch sys run name ∧
    (f1, some e) ∈ EventSystem.dispatch sys run name ∧
    (∀ sys2 : EventSystem, EventSystem.listeners sys2 name = none →
      EventSystem.dispatch sys2 run name = []) := by
  have hd : EventSystem.dispatch sys run name = ls.map (EventSystem.dispatch_to run) := by
    unfold EventSystem.dispatch
    rw [hls]
  refine ⟨hd, ?_, ?_, ?_⟩
  · rw [hd]
    refine List.mem_map.mpr ⟨f2, hmem2, ?_⟩
    unfold EventSystem.dispatch_to
    rw [hrun2]
  · rw [hd]
    refine List.mem_map.mpr ⟨f1, hmem1, ?_⟩
    unfold EventSystem.dispatch_to
    rw [hrun1]
  · intro sys2 h2
    unfold EventSystem.dispatch
    rw [h2]

/-- Two listeners registered on topic x of a fresh hub. -/
def hubTwoListeners : EventSystem :=
  EventSystem.add_listener (EventSystem.add_listener [] "x" 0) "x" 1

/-- A dispatch-time behaviour where listener 0 raises and listener 1
succeeds. -/
def runSplit : Nat → Except String Unit :=
  fun n => if n = 0 then .error "handler blew up" else .ok ()

/-- Witness for C7: publishing x runs both listeners, records listener 0's
caught failure next to listener 1's clean run, and raises nothing. -/
theorem dispatch_isolates_handler_failures_witness :
    EventSystem.listeners hubTwoListeners "x" = some [0, 1] ∧
    EventSystem.dispatch hubTwoListeners runSplit "x" =
      [(0, some "handler blew up"), (1, none)] ∧
    EventSystem.dispatch [] runSplit "x" = [] := by
  have h := dispatch_isolates_handler_failures hubTwoListeners "x" runSplit [0, 1]
    0 1 "handler blew up" rfl (by simp) (by simp) rfl rfl
  exact ⟨rfl, by rw [h.1]; rfl, h.2.2.2 [] rfl⟩

/-! ## Theorems: loop failure tolerance (claim C6) -/

/-- C6: both polling loops run as many cycles as wake-ups have elapsed,
whatever errors the cycles raise — the catch-all boundary absorbs every
cycle failure (each outcome in the trace may carry its error) and the next
wake-up always executes on the state the failing cycle left behind. -/
theorem loops_survive_cycle_failures (envs : Nat → CycleEnv) :
    ∀ (n i : Nat) (states : Registry),
      (serial_numbers_loop envs i states n).2.length = n ∧
      (states_loop envs i states n).2.length = n := by
  intro n
  induction n with
  | zero => intro i states; exact ⟨rfl, rfl⟩
  | succ k ih =>
      intro i states
      constructor
      · unfold serial_numbers_loop
        simpa using (ih (i + 1) _).1
      · unfold states_loop
        simpa using (ih (i + 1) _).2

/-! ## Registry lemmas -/

/-- The events the removal loop dispatches for a whole registry, in
registry order. -/
def removalEvents : Registry → List Event
  | [] => []
  | (k, v) :: rest => Event.device_removed v :: Event.removed k :: removalEvents rest

theorem keys_cons (k : String) (v : DeviceState) (rest : Registry) :
    Registry.keys ((k, v) :: rest) = k :: Registry.keys rest := rfl

theorem keys_append (a b : Registry) :
    Registry.keys (a ++ b) = Registry.keys a ++ Registry.keys b :=
  List.map_append _ a b

theorem find_eq_none (states : Registry) (sn : String)
    (h : sn ∉ Registry.keys states) : Registry.find states sn = none := by
  induction states with
  | nil => rfl
  | cons p rest ih =>
      obtain ⟨k, v⟩ := p
      rw [keys_cons] at h
      have h1 : ¬(k = sn) := by
        rintro rfl
        exact h (List.mem_cons_self _ _)
      unfold Registry.find
      rw [if_neg h1]
      exact ih (fun hm => h (List.mem_cons_of_mem k hm))

theorem set_fresh (states : Registry) (sn : String) (v : DeviceState)
    (h : sn ∉ Registry.keys states) :
    Registry.set states sn v = states ++ [(sn, v)] := by
  induction states with
  | nil => rfl
  | cons p rest ih =>
      obtain ⟨k, w⟩ := p
      rw [keys_cons] at h
      have h1 : ¬(k = sn) := by
        rintro rfl
        exact h (List.mem_cons_self _ _)
      unfold Registry.set
      rw [if_neg h1, ih (fun hm => h (List.mem_cons_of_mem k hm))]
      rfl

theorem pop_of_mem (states : Registry) (sn : String)
    (h : sn ∈ Registry.keys states) :
    ∃ st states1, Registry.pop states sn = some (st, states1) ∧
      Registry.keys states1 = (Registry.keys states).erase sn := by
  induction states with
  | nil => simp [Registry.keys] at h
  | cons p rest ih =>
      obtain ⟨k, v⟩ := p
      by_cases hk : k = sn
      · subst hk
        refine ⟨v, rest, ?_, ?_⟩
        · unfold Registry.pop
          rw [if_pos rfl]
        · rw [keys_cons, List.erase_cons_head]
      · rw [keys_cons] at h
        have hm : sn ∈ Registry.keys rest := by
          cases List.mem_cons.mp h with
          | inl he => exact absurd he.symm hk
          | inr hm => exact hm
        obtain ⟨st, r1, hpop, hkeys⟩ := ih hm
        refine ⟨st, (k, v) :: r1, ?_, ?_⟩
        · unfold Registry.pop
          rw [if_neg hk, hpop]
          rfl
        · rw [keys_cons, keys_cons, hkeys, List.erase_cons_tail]
          simp [hk]

/-- The removal loop over a list of keys that are distinct and all
present: it raises nothing, every event it emits is a removal event, and
it removes exactly the listed keys, keeping the rest of the (duplicate-
free) registry. -/
theorem removePhase_spec :
    ∀ (removed : List String) (states : Registry),
      removed.Nodup → (Registry.keys states).Nodup →
      (∀ sn ∈ removed, sn ∈ Registry.keys states) →
      (removePhase states removed).2.2 = none ∧
      (removePhase states removed).2.1.all Event.isRemovalKind = true ∧
      (Registry.keys (removePhase states removed).1).Nodup ∧
      (∀ x, x ∈ Registry.keys (removePhase states removed).1 ↔
        x ∈ Registry.keys states ∧ x ∉ removed) := by
  intro removed
  induction removed with
  | nil =>
      intro states _ hkn _
      exact ⟨rfl, rfl, hkn, by simp [removePhase]⟩
  | cons sn rest ih =>
      intro states hnd hkn hmem
      obtain ⟨st, states1, hpop, hkeys⟩ :=
        pop_of_mem states sn (hmem sn (List.mem_cons_self sn rest))
      have hkn1 : (Registry.keys states1).Nodup := by
        rw [hkeys]; exact hkn.erase sn
      have hmem1 : ∀ x ∈ rest, x ∈ Registry.keys states1 := by
        intro x hx
        rw [hkeys, hkn.mem_erase_iff]
        exact ⟨fun he => (List.nodup_cons.mp hnd).1 (he ▸ hx),
               hmem x (List.mem_cons_of_mem sn hx)⟩
      obtain ⟨he, hall, hnodup, hiff⟩ :=
        ih states1 (List.nodup_cons.mp hnd).2 hkn1 hmem1
      have hstep : removePhase states (sn :: rest) =
          ((removePhase states1 rest).1,
           Event.device_removed st :: Event.removed sn ::
             (removePhase states1 rest).2.1,
           (removePhase states1 rest).2.2) := by
        conv_lhs => rw [removePhase.eq_2, hpop]
      rw [hstep]
      clear hstep
      refine ⟨he, by simpa [Event.isRemovalKind] using hall, hnodup, ?_⟩
      intro x
      rw [hiff x, hkeys, hkn.mem_erase_iff]
      constructor
      · rintro ⟨⟨hne, hmemx⟩, hnr⟩
        exact ⟨hmemx, by simp [hne, hnr]⟩
      · rintro ⟨hmemx, hnr⟩
        simp only [List.mem_cons, not_or] at hnr
        exact ⟨⟨hnr.1, hmemx⟩, hnr.2⟩

/-- The removal loop applied to every key of the registry (the shape a
fetch with zero devices produces): it empties the registry, emits the
removal events of every device in order, and raises nothing. -/
theorem removePhase_all (states : Registry) :
    removePhase states (Registry.keys states) = ([], removalEvents states, none) := by
  induction states with
  | nil => rfl
  | cons p rest ih =>
      obtain ⟨k, v⟩ := p
      have hstep : Registry.pop ((k, v) :: rest) k = some (v, rest) := by
        unfold Registry.pop
        rw [if_pos rfl]
      rw [keys_cons]
      unfold removePhase
      rw [hstep]
      dsimp only
      rw [ih]
      rfl

/-- The registry entries the add loop creates for a list of new serial
numbers whose sample fetches succeed. -/
def addedEntries (sampleFor : SampleEnv) (now : Int) : List String → Registry
  | [] => []
  | sn :: rest =>
      match DeviceState.get sampleFor now sn with
      | .error _ => []
      | .ok st => (sn, st) :: addedEntries sampleFor now rest

theorem addedEntries_keys (sampleFor : SampleEnv) (now : Int) :
    ∀ added : List String,
      (∀ sn ∈ added, ∃ s, sampleFor sn (now - oneDay) = .ok s) →
      Registry.keys (addedEntries sampleFor now added) = added := by
  intro added
  induction added with
  | nil => intro; rfl
  | cons sn rest ih =>
      intro h
      obtain ⟨s, hs⟩ := h sn (List.mem_cons_self sn rest)
      have hget : DeviceState.get sampleFor now sn = .ok (DeviceState.from_sample sn s) := by
        unfold DeviceState.get
        rw [hs]
        rfl
      unfold addedEntries
      rw [hget, keys_cons, ih (fun x hx => h x (List.mem_cons_of_mem sn hx))]

/-- The add loop over distinct serial numbers that are new to the registry
and whose sample fetches succeed: it appends the freshly built states in
order, emits exactly their device_added events, and raises nothing. -/
theorem addPhase_fresh (sampleFor : SampleEnv) (now : Int) :
    ∀ (added : List String) (states : Registry),
      added.Nodup →
      (∀ sn ∈ added, sn ∉ Registry.keys states) →
      (∀ sn ∈ added, ∃ s, sampleFor sn (now - oneDay) = .ok s) →
      addPhase sampleFor now states added =
        (states ++ addedEntries sampleFor now added,
         (addedEntries sampleFor now added).map (fun p => Event.device_added p.2),
         none) := by
  intro added
  induction added with
  | nil =>
      intro states _ _ _
      simp [addPhase, addedEntries]
  | cons sn rest ih =>
      intro states hnd hfresh hsamples
      obtain ⟨s, hs⟩ := hsamples sn (List.mem_cons_self sn rest)
      have hget : DeviceState.get sampleFor now sn = .ok (DeviceState.from_sample sn s) := by
        unfold DeviceState.get
        rw [hs]
        rfl
      have hfind : Registry.find states sn = none :=
        find_eq_none states sn (hfresh sn (List.mem_cons_self sn rest))
      have hset : Registry.set states sn (DeviceState.from_sample sn s) =
          states ++ [(sn, DeviceState.from_sample sn s)] :=
        set_fresh states sn _ (hfresh sn (List.mem_cons_self sn rest))
      have hgs : AirthingsAPI.get_state sampleFor now states sn =
          (states ++ [(sn, DeviceState.from_sample sn s)],
           .ok (DeviceState.from_sample sn s, [])) := by
        unfold AirthingsAPI.get_state
        rw [hfind, hget]
        dsimp only
        rw [hset]
      have hfresh1 : ∀ x ∈ rest,
          x ∉ Registry.keys (states ++ [(sn, DeviceState.from_sample sn s)]) := by
        intro x hx
        rw [keys_append]
        intro hmem
        cases List.mem_append.mp hmem with
        | inl hl => exact hfresh x (List.mem_cons_of_mem sn hx) hl
        | inr hr =>
            have hxsn : x = sn := by
              have hsing : Registry.keys [(sn, DeviceState.from_sample sn s)] = [sn] := rfl
              rw [hsing] at hr
              exact List.mem_singleton.mp hr
            exact (List.nodup_cons.mp hnd).1 (hxsn ▸ hx)
      have hrec := ih (states ++ [(sn, DeviceState.from_sample sn s)])
        (List.nodup_cons.mp hnd).2 hfresh1
        (fun x hx => hsamples x (List.mem_cons_of_mem sn hx))
      have hentries : addedEntries sampleFor now (sn :: rest) =
          (sn, DeviceState.from_sample sn s) :: addedEntries sampleFor now rest := by
        conv_lhs => rw [addedEntries.eq_2, hget]
      unfold addPhase
      rw [hgs]
      dsimp only
      rw [hrec, hentries]
      simp

/-! ## Event-trace shape lemmas -/

theorem addsBeforeRemovals_of_removals (evs : List Event)
    (h : evs.all Event.isRemovalKind = true) : addsBeforeRemovals evs = true := by
  cases evs with
  | nil => rfl
  | cons e rest =>
      rw [List.all_cons] at h
      obtain ⟨he, hrest⟩ := Bool.and_eq_true_iff.mp h
      unfold addsBeforeRemovals
      rw [if_pos he]
      exact hrest

theorem addsBeforeRemovals_of_shape (evs1 evs2 : List Event)
    (h1 : evs1.all Event.isAdded = true) (h2 : evs2.all Event.isRemovalKind = true) :
    addsBeforeRemovals (evs1 ++ evs2) = true := by
  induction evs1 with
  | nil => exact addsBeforeRemovals_of_removals evs2 h2
  | cons e rest ih =>
      rw [List.all_cons] at h1
      obtain ⟨he, hrest⟩ := Bool.and_eq_true_iff.mp h1
      have hne : e.isRemovalKind = false := by
        cases e <;> simp_all [Event.isAdded, Event.isRemovalKind]
      rw [List.cons_append]
      unfold addsBeforeRemovals
      rw [if_neg (by rw [hne]; exact Bool.false_ne_true)]
      exact ih hrest

theorem countUpdated_of_shape (evs1 evs2 : List Event)
    (h1 : evs1.all Event.isAdded = true) (h2 : evs2.all Event.isRemovalKind = true) :
    countUpdated (evs1 ++ evs2) = 0 := by
  unfold countUpdated
  rw [List.length_eq_zero, List.filter_eq_nil_iff]
  intro e he
  cases List.mem_append.mp he with
  | inl hl =>
      have := List.all_eq_true.mp h1 e hl
      cases e <;> simp_all [Event.isAdded, Event.isUpdated]
  | inr hr =>
      have := List.all_eq_true.mp h2 e hr
      cases e <;> simp_all [Event.isRemovalKind, Event.isUpdated]

/-! ## Cycle-level lemmas -/

/-- A cycle whose serial-number fetch raises changes nothing and emits
nothing: the error is re-raised before any mutation. -/
theorem cycle_fetch_error (e : AirthingsErr) (sampleFor : SampleEnv) (now : Int)
    (states : Registry) :
    update_serial_numbers_once (.error e) sampleFor now states = ⟨states, [], some e⟩ :=
  rfl

/-- Unfolding the successful-fetch cycle once the add loop's outcome is
known. -/
theorem cycle_eq_of_addPhase_ok (fetched : List String) (sampleFor : SampleEnv)
    (now : Int) (states S1 : Registry) (E1 : List Event)
    (hadd : addPhase sampleFor now states
        ((fetched.dedup).filter (fun sn => !(Registry.keys states).contains sn)) =
      (S1, E1, none)) :
    update_serial_numbers_once (.ok fetched) sampleFor now states =
      ⟨(removePhase S1 ((Registry.keys states).filter
          (fun sn => !(fetched.dedup).contains sn))).1,
       E1 ++ (removePhase S1 ((Registry.keys states).filter
          (fun sn => !(fetched.dedup).contains sn))).2.1,
       (removePhase S1 ((Registry.keys states).filter
          (fun sn => !(fetched.dedup).contains sn))).2.2⟩ := by
  unfold update_serial_numbers_once
  dsimp only
  rw [hadd]

/-- The full specification of a cycle whose serial-number fetch succeeds
and whose per-device sample fetches for the new serial numbers succeed:
no error is raised, the trace is additions followed by removals, the
resulting registry keys are duplicate-free, and they are exactly the
fetched serial numbers. -/
theorem cycle_success_spec (fetched : List String) (sampleFor : SampleEnv) (now : Int)
    (states : Registry) (hnd : (Registry.keys states).Nodup)
    (hsamples : ∀ sn ∈ fetched, sn ∉ Registry.keys states →
      ∃ s, sampleFor sn (now - oneDay) = .ok s) :
    (update_serial_numbers_once (.ok fetched) sampleFor now states).error = none ∧
    (∃ evs1 evs2,
      (update_serial_numbers_once (.ok fetched) sampleFor now states).events =
        evs1 ++ evs2 ∧
      evs1.all Event.isAdded = true ∧ evs2.all Event.isRemovalKind = true) ∧
    (Registry.keys (update_serial_numbers_once (.ok fetched) sampleFor now states).states).Nodup ∧
    (∀ x, x ∈ Registry.keys
        (update_serial_numbers_once (.ok fetched) sampleFor now states).states ↔
      x ∈ fetched) := by
  have hmem_added : ∀ x, x ∈ (fetched.dedup).filter
      (fun sn => !(Registry.keys states).contains sn) ↔
      x ∈ fetched ∧ x ∉ Registry.keys states := by
    intro x
    simp [List.mem_filter, List.mem_dedup]
  have hnd_added : ((fetched.dedup).filter
      (fun sn => !(Registry.keys states).contains sn)).Nodup :=
    (List.nodup_dedup fetched).filter _
  have hfresh : ∀ sn ∈ (fetched.dedup).filter
      (fun sn => !(Registry.keys states).contains sn), sn ∉ Registry.keys states :=
    fun sn hsn => ((hmem_added sn).mp hsn).2
  have hsamp : ∀ sn ∈ (fetched.dedup).filter
      (fun sn => !(Registry.keys states).contains sn),
      ∃ s, sampleFor sn (now - oneDay) = .ok s := by
    intro sn hsn
    obtain ⟨hf, hnk⟩ := (hmem_added sn).mp hsn
    exact hsamples sn hf hnk
  have hadd := addPhase_fresh sampleFor now
    ((fetched.dedup).filter (fun sn => !(Registry.keys states).contains sn)) states
    hnd_added hfresh hsamp
  have hkeys1 : Registry.keys (states ++ addedEntries sampleFor now
      ((fetched.dedup).filter (fun sn => !(Registry.keys states).contains sn))) =
      Registry.keys states ++
        (fetched.dedup).filter (fun sn => !(Registry.keys states).contains sn) := by
    rw [keys_append, addedEntries_keys sampleFor now _ hsamp]
  have hkeys1_nodup : (Registry.keys (states ++ addedEntries sampleFor now
      ((fetched.dedup).filter (fun sn => !(Registry.keys states).contains sn)))).Nodup := by
    rw [hkeys1]
    refine hnd.append hnd_added ?_
    intro a ha hb
    exact ((hmem_added a).mp hb).2 ha
  have hmem_removed : ∀ x, x ∈ (Registry.keys states).filter
      (fun sn => !(fetched.dedup).contains sn) ↔
      x ∈ Registry.keys states ∧ x ∉ fetched := by
    intro x
    simp [List.mem_filter, List.mem_dedup]
  have hnd_removed : ((Registry.keys states).filter
      (fun sn => !(fetched.dedup).contains sn)).Nodup := hnd.filter _
  have hsub : ∀ sn ∈ (Registry.keys states).filter
      (fun sn => !(fetched.dedup).contains sn),
      sn ∈ Registry.keys (states ++ addedEntries sampleFor now
        ((fetched.dedup).filter (fun sn => !(Registry.keys states).contains sn))) := by
    intro sn hsn
    rw [hkeys1]
    exact List.mem_append_left _ ((hmem_removed sn).mp hsn).1
  have hrem := removePhase_spec
    ((Registry.keys states).filter (fun sn => !(fetched.dedup).contains sn))
    (states ++ addedEntries sampleFor now
      ((fetched.dedup).filter (fun sn => !(Registry.keys states).contains sn)))
    hnd_removed hkeys1_nodup hsub
  obtain ⟨herr, hall, hnodup, hiff⟩ := hrem
  have hout := cycle_eq_of_addPhase_ok fetched sampleFor now states _ _ hadd
  rw [hout]
  refine ⟨herr, ⟨_, _, rfl, ?_, hall⟩, hnodup, ?_⟩
  · rw [List.all_eq_true]
    intro e he
    obtain ⟨p, _, hp⟩ := List.mem_map.mp he
    rw [← hp]
    rfl
  · intro x
    rw [hiff x, hkeys1]
    constructor
    · rintro ⟨hmem, hnr⟩
      cases List.mem_append.mp hmem with
      | inl hl =>
          by_contra hnf
          exact hnr ((hmem_removed x).mpr ⟨hl, hnf⟩)
      | inr hr => exact ((hmem_added x).mp hr).1
    · intro hf
      by_cases hk : x ∈ Registry.keys states
      · refine ⟨List.mem_append_left _ hk, fun hr => ?_⟩
        exact ((hmem_removed x).mp hr).2 hf
      · refine ⟨List.mem_append_right _ ((hmem_added x).mpr ⟨hf, hk⟩), fun hr => ?_⟩
        exact hk ((hmem_removed x).mp hr).1

/-- A cycle whose fetch returns exactly the tracked serial numbers is a
no-op: empty diff, no events, no error, registry untouched. -/
theorem cycle_identical_noop (fetched : List String) (sampleFor : SampleEnv)
    (now : Int) (states : Registry)
    (h : ∀ x, x ∈ Registry.keys states ↔ x ∈ fetched) :
    update_serial_numbers_once (.ok fetched) sampleFor now states = ⟨states, [], none⟩ := by
  have hadded : (fetched.dedup).filter
      (fun sn => !(Registry.keys states).contains sn) = [] := by
    rw [List.filter_eq_nil_iff]
    intro a ha
    have hmem : a ∈ Registry.keys states := (h a).mpr (List.mem_dedup.mp ha)
    simp [hmem]
  have hremoved : (Registry.keys states).filter
      (fun sn => !(fetched.dedup).contains sn) = [] := by
    rw [List.filter_eq_nil_iff]
    intro a ha
    have hmem : a ∈ fetched.dedup := List.mem_dedup.mpr ((h a).mp ha)
    simp [hmem]
  have hadd : addPhase sampleFor now states
      ((fetched.dedup).filter (fun sn => !(Registry.keys states).contains sn)) =
      (states, [], none) := by
    rw [hadded]
    rfl
  have hout := cycle_eq_of_addPhase_ok fetched sampleFor now states states [] hadd
  rw [hout, hremoved]
  rfl

/-! ## Concrete reconciliation runs -/

/-- The sample the cloud returns for a newly discovered device C. -/
def sampleNewDevice : Sample := ⟨"roomC", "locC", 10, 10, [("radon", [3, 5])]⟩

/-- A tracked device A. -/
def stateA : DeviceState := ⟨"A", "roomA", "locA", [], 0⟩

/-- A tracked device B. -/
def stateB : DeviceState := ⟨"B", "roomB", "locB", [], 0⟩

/-- A registry tracking devices A and B. -/
def registryAB : Registry := [("A", stateA), ("B", stateB)]

/-- A sample endpoint that knows only device C. -/
def sampleEnvOnlyC : SampleEnv :=
  fun sn _ => if sn = "C" then .ok sampleNewDevice else .error (.exc "no sample")

/-- One reconciliation cycle from registry (A, B) with a fetch returning
(B, C). -/
def cycleABtoBC : CycleOutcome :=
  update_serial_numbers_once (.ok ["B", "C"]) sampleEnvOnlyC 0 registryAB

/-- The device state the cycle builds for C. -/
def stateC : DeviceState := DeviceState.from_sample "C" sampleNewDevice

/-- The sample the cloud returns for device B when it is first created. -/
def sampleForB : Sample := ⟨"roomB", "locB", 5, 5, []⟩

/-- The device state built from that sample. -/
def stateBNew : DeviceState := DeviceState.from_sample "B" sampleForB

/-- A sample endpoint that knows only device B; every other device's
fetch raises. -/
def sampleEnvOnlyB : SampleEnv :=
  fun sn _ => if sn = "B" then .ok sampleForB else .error (.exc "network down")

/-- A registry tracking only device A. -/
def registryA : Registry := [("A", stateA)]

/-- One cycle from registry (A) with a fetch returning (B, C), where B's
sample fetch succeeds and C's raises. -/
def cycleAtoBC : CycleOutcome :=
  update_serial_numbers_once (.ok ["B", "C"]) sampleEnvOnlyB 0 registryA

/-- First cycle from an empty registry with a fetch returning (B). -/
def cycleFirstB : CycleOutcome :=
  update_serial_numbers_once (.ok ["B"]) sampleEnvOnlyB 0 []

/-- Second consecutive cycle with the identical fetch result (B). -/
def cycleSecondB : CycleOutcome :=
  update_serial_numbers_once (.ok ["B"]) sampleEnvOnlyB 0 cycleFirstB.states

/-! ## Theorems: reconciliation ordering (claim C1) -/

/-- Counterexample to C1: from registry (A, B) with a fetch returning
(B, C), the cycle emits device_added(C) BEFORE device_removed(A) — not
removals first — and emits no updated event on B at all (the
serial-number cycle never touches devices present in both sets; updated
events come from the separate state-refresh loop).  The final registry is
(B, C) as claimed. -/
theorem reconciliation_order_counterexample :
    cycleABtoBC.events =
      [Event.device_added stateC, Event.device_removed stateA, Event.removed "A"] ∧
    removalsBeforeAddsUpdates cycleABtoBC.events = false ∧
    countUpdated cycleABtoBC.events = 0 ∧
    Registry.keys cycleABtoBC.states = ["B", "C"] ∧
    cycleABtoBC.error = none :=
  ⟨rfl, rfl, rfl, rfl, rfl⟩

/-- C1 (amended): in one successful reconciliation cycle all additions
are emitted BEFORE all removals, no updated event is emitted at all, and
the registry afterwards holds exactly the fetched serial numbers; from
registry (A, B) and fetch (B, C) the cycle emits device_added(C), then
device_removed(A), no updated on B, and leaves the registry equal to
(B, C). -/
theorem reconciliation_adds_before_removals (fetched : List String)
    (sampleFor : SampleEnv) (now : Int) (states : Registry)
    (hnd : (Registry.keys states).Nodup)
    (hsamples : ∀ sn ∈ fetched, sn ∉ Registry.keys states →
      ∃ s, sampleFor sn (now - oneDay) = .ok s) :
    (update_serial_numbers_once (.ok fetched) sampleFor now states).error = none ∧
    addsBeforeRemovals
      (update_serial_numbers_once (.ok fetched) sampleFor now states).events = true ∧
    countUpdated
      (update_serial_numbers_once (.ok fetched) sampleFor now states).events = 0 ∧
    (∀ x, x ∈ Registry.keys
        (update_serial_numbers_once (.ok fetched) sampleFor now states).states ↔
      x ∈ fetched) := by
  obtain ⟨herr, ⟨evs1, evs2, hev, h1, h2⟩, _, hiff⟩ :=
    cycle_success_spec fetched sampleFor now states hnd hsamples
  refine ⟨herr, ?_, ?_, hiff⟩
  · rw [hev]
    exact addsBeforeRemovals_of_shape evs1 evs2 h1 h2
  · rw [hev]
    exact countUpdated_of_shape evs1 evs2 h1 h2

/-- Witness for the amended C1, at the claim's own scenario: registry
(A, B), fetch (B, C). -/
theorem reconciliation_adds_before_removals_witness :
    (update_serial_numbers_once (.ok ["B", "C"]) sampleEnvOnlyC 0 registryAB).error
      = none ∧
    addsBeforeRemovals
      (update_serial_numbers_once (.ok ["B", "C"]) sampleEnvOnlyC 0 registryAB).events
      = true ∧
    countUpdated
      (update_serial_numbers_once (.ok ["B", "C"]) sampleEnvOnlyC 0 registryAB).events
      = 0 ∧
    ("A" ∈ Registry.keys
        (update_serial_numbers_once (.ok ["B", "C"]) sampleEnvOnlyC 0 registryAB).states ↔
      "A" ∈ ["B", "C"]) := by
  have h := reconciliation_adds_before_removals ["B", "C"] sampleEnvOnlyC 0 registryAB
    (by simp [registryAB, Registry.keys, stateA, stateB])
    (by
      intro sn hsn hnot
      simp only [List.mem_cons, List.not_mem_nil, or_false] at hsn
      rcases hsn with rfl | rfl
      · exact absurd (by simp [registryAB, Registry.keys, stateA, stateB]) hnot
      · exact ⟨sampleNewDevice, rfl⟩)
  exact ⟨h.1, h.2.1, h.2.2.1, h.2.2.2 "A"⟩

/-! ## Theorems: registry invariant under failures (claim C2) -/

/-- Counterexample to C2: from registry (A), a cycle whose device-list
fetch succeeds with (B, C) but whose per-device sample fetch for C raises
aborts mid-cycle: it raises an error, yet it has already inserted B and
emitted device_added(B), and the removal of A never ran — the registry
(A, B) matches neither the previous state (A) nor the fetched set (B, C),
and the emitted-event history changed despite the error. -/
theorem registry_invariant_counterexample :
    cycleAtoBC.error = some (.exc "network down") ∧
    Registry.keys cycleAtoBC.states = ["A", "B"] ∧
    Registry.keys registryA = ["A"] ∧
    cycleAtoBC.events = [Event.device_added stateBNew] :=
  ⟨rfl, rfl, rfl, rfl⟩

/-- C2 (amended): a cycle whose device-list fetch raises leaves the
registry and the event history unchanged and re-raises the error; a cycle
whose device-list fetch and per-device sample fetches all succeed leaves
the registry keys exactly equal to the fetched serial numbers (so
diffing resumes from last-known-good state after failed cycles).  A
failure of a per-device sample fetch during the addition phase, however,
aborts the cycle with already-added devices kept and removals unapplied. -/
theorem registry_matches_last_successful_fetch (fetched : List String)
    (sampleFor : SampleEnv) (now : Int) (states : Registry)
    (hnd : (Registry.keys states).Nodup)
    (hsamples : ∀ sn ∈ fetched, sn ∉ Registry.keys states →
      ∃ s, sampleFor sn (now - oneDay) = .ok s) :
    (∀ e sf2 n2, update_serial_numbers_once (.error e) sf2 n2 states =
      ⟨states, [], some e⟩) ∧
    (update_serial_numbers_once (.ok fetched) sampleFor now states).error = none ∧
    (∀ x, x ∈ Registry.keys
        (update_serial_numbers_once (.ok fetched) sampleFor now states).states ↔
      x ∈ fetched) := by
  obtain ⟨herr, _, _, hiff⟩ := cycle_success_spec fetched sampleFor now states hnd hsamples
  exact ⟨fun e sf2 n2 => cycle_fetch_error e sf2 n2 states, herr, hiff⟩

/-- Witness for the amended C2: a failed fetch over registry (A, B) is a
no-op, and the successful (B, C) cycle leaves exactly the fetched keys. -/
theorem registry_matches_last_successful_fetch_witness :
    update_serial_numbers_once (.error (.exc "boom")) sampleEnvOnlyC 7 registryAB =
      ⟨registryAB, [], some (.exc "boom")⟩ ∧
    (update_serial_numbers_once (.ok ["B", "C"]) sampleEnvOnlyC 0 registryAB).error
      = none ∧
    ("B" ∈ Registry.keys
        (update_serial_numbers_once (.ok ["B", "C"]) sampleEnvOnlyC 0 registryAB).states ↔
      "B" ∈ ["B", "C"]) := by
  have h := registry_matches_last_successful_fetch ["B", "C"] sampleEnvOnlyC 0 registryAB
    (by simp [registryAB, Registry.keys, stateA, stateB])
    (by
      intro sn hsn hnot
      simp only [List.mem_cons, List.not_mem_nil, or_false] at hsn
      rcases hsn with rfl | rfl
      · exact absurd (by simp [registryAB, Registry.keys, stateA, stateB]) hnot
      · exact ⟨sampleNewDevice, rfl⟩)
  exact ⟨h.1 (.exc "boom") sampleEnvOnlyC 7, h.2.1, h.2.2 "B"⟩

/-! ## Theorems: idempotent consecutive cycles (claim C8) -/

/-- Counterexample to C8: from an empty registry, a first cycle fetching
(B) adds B; the second cycle with the identical fetch emits zero
device_added and zero device_removed events as claimed, but also zero
updated events — not exactly one per tracked device.  The serial-number
cycle never emits updated; those come from the separate state-refresh
loop, and only when a newer sample exists. -/
theorem idempotent_cycle_counterexample :
    cycleFirstB.states = [("B", stateBNew)] ∧
    cycleFirstB.error = none ∧
    cycleSecondB = ⟨[("B", stateBNew)], [], none⟩ ∧
    countUpdated cycleSecondB.events = 0 :=
  ⟨rfl, rfl, rfl, rfl⟩

/-- C8 (amended): after a successful cycle, a second cycle whose fetch
returns the identical device list (under any sample endpoint and clock)
is a complete no-op — zero device_added, zero device_removed, and zero
updated events, with the registry unchanged. -/
theorem second_identical_cycle_is_noop (fetched : List String)
    (sampleFor : SampleEnv) (now : Int) (states : Registry)
    (sampleFor2 : SampleEnv) (now2 : Int)
    (hnd : (Registry.keys states).Nodup)
    (hsamples : ∀ sn ∈ fetched, sn ∉ Registry.keys states →
      ∃ s, sampleFor sn (now - oneDay) = .ok s) :
    update_serial_numbers_once (.ok fetched) sampleFor2 now2
        (update_serial_numbers_once (.ok fetched) sampleFor now states).states =
      ⟨(update_serial_numbers_once (.ok fetched) sampleFor now states).states,
       [], none⟩ := by
  obtain ⟨_, _, _, hiff⟩ := cycle_success_spec fetched sampleFor now states hnd hsamples
  exact cycle_identical_noop fetched sampleFor2 now2 _ hiff

/-- Witness for the amended C8: the second (B) cycle after the first one
is a no-op. -/
theorem second_identical_cycle_is_noop_witness :
    update_serial_numbers_once (.ok ["B"]) sampleEnvOnlyB 1
        (update_serial_numbers_once (.ok ["B"]) sampleEnvOnlyB 0 []).states =
      ⟨(update_serial_numbers_once (.ok ["B"]) sampleEnvOnlyB 0 []).states,
       [], none⟩ :=
  second_identical_cycle_is_noop ["B"] sampleEnvOnlyB 0 [] sampleEnvOnlyB 1
    (by simp [Registry.keys])
    (by
      intro sn hsn _
      simp only [List.mem_singleton] at hsn
      subst hsn
      exact ⟨sampleForB, rfl⟩)

/-! ## Theorems: missing serialNumbers key (claim C10) -/

/-- C10: a successful device-list response whose body lacks the
serialNumbers key yields the empty list instead of raising, and a cycle
whose fetch yields the empty list removes every tracked device, emitting
its removal events, with no error. -/
theorem missing_serial_numbers_key_empty (reason : String) (body : JSONObj)
    (hkey : JSONObj.lookup body "serialNumbers" = none)
    (sampleFor : SampleEnv) (now : Int) (states : Registry) :
    AirthingsAPI.get_serial_numbers 200 reason body = .ok (.arr []) ∧
    update_serial_numbers_once (.ok []) sampleFor now states =
      ⟨[], removalEvents states, none⟩ := by
  constructor
  · unfold AirthingsAPI.get_serial_numbers AirthingsAPI.request_result
    rw [if_pos rfl]
    dsimp only
    rw [hkey]
  · have hadd : addPhase sampleFor now states
        ((([] : List String).dedup).filter
          (fun sn => !(Registry.keys states).contains sn)) =
        (states, [], none) := rfl
    have hout := cycle_eq_of_addPhase_ok [] sampleFor now states states [] hadd
    have hfilter : (Registry.keys states).filter
        (fun sn => !(([] : List String).dedup).contains sn) = Registry.keys states :=
      List.filter_eq_self.mpr (by intro a _; simp)
    rw [hout, hfilter, removePhase_all]
    rfl

/-- A response body without the serialNumbers key. -/
def bodyNoSerials : JSONObj := [("deviceCount", .num 0)]

/-- Witness for C10: the keyless body yields the empty list and the
empty-list cycle empties registry (A), emitting its removal events. -/
theorem missing_serial_numbers_key_empty_witness :
    AirthingsAPI.get_serial_numbers 200 "OK" bodyNoSerials = .ok (.arr []) ∧
    update_serial_numbers_once (.ok []) sampleEnvOnlyB 0 registryA =
      ⟨[], removalEvents registryA, none⟩ :=
  missing_serial_numbers_key_empty "OK" bodyNoSerials rfl sampleEnvOnlyB 0 registryA

end Airthings
